import Mathlib

/-!
Verification of the MPI-visualize repository: a producer
(src/mpi-compute/main.c) streams image frames over an MPI
intercommunicator to a Qt consumer (src/mpi-visualize/mainwindow.cpp).

The embedding is a shallow functional model of the channel lifecycle.
MPI calls whose outcome depends on the environment (success of a call,
completion of a request, availability of a probed message) take that
outcome as an explicit oracle input.  Each modelled operation returns,
besides its updated state, a trace of the primitive channel events it
performed, so that ordering properties (cancel before release, quit
before disconnect, ...) are statements about the trace.
-/

namespace MPIVisualize

/-- Oracle for one call of mpiIsIntercommAlive: whether the MPI_Irecv
post succeeds, whether the MPI_Test call succeeds, and the completion
flag reported by MPI_Test (true means the quit message has arrived). -/
structure LivenessEnv where
  irecvOk : Bool
  testOk : Bool
  flag : Bool
  deriving Repr, DecidableEq

/-- Producer-side state of src/mpi-compute/main.c (rank 0):
comm models intercomm != MPI_COMM_NULL, recvReq models
recv_disconnect_request != MPI_REQUEST_NULL, sendReq counts the
outstanding image-data send requests held in send_image_data_request
(modelled as a count so that the single-slot invariant is a real
statement, not a consequence of the state type), portOpen tracks the
published port, connected is the local variable of main, aborted
records that MPI_Abort was reached. -/
structure ProdState where
  comm : Bool
  recvReq : Bool
  sendReq : Nat
  portOpen : Bool
  connected : Bool
  aborted : Bool
  deriving Repr, DecidableEq

/-- Primitive producer-side channel events, in program order. -/
inductive PEvent where
  | cancelSend
  | cancelRecv
  | commDisconnect
  | closePort
  | postProbe
  | testProbe
  | waitSend
  | postSend
  | ssendQuit
  | abortAll
  deriving Repr, DecidableEq

/-- Model of mpiDisconnect (main.c lines 327-355): no-op when the
communicator is already NULL; otherwise cancel the outstanding send
and quit-probe requests (each cancellation only when the request slot
is non-NULL), then MPI_Comm_disconnect and MPI_Close_port.  The state
update is written flattened because a cancelled slot ends NULL either
way; the conditional cancellations appear in the trace. -/
def mpiDisconnect (s : ProdState) : ProdState × List PEvent :=
  if s.comm = false then (s, [])
  else
    ({ s with sendReq := 0, recvReq := false, comm := false, portOpen := false },
     (if s.sendReq ≠ 0 then [PEvent.cancelSend] else []) ++
       (if s.recvReq then [PEvent.cancelRecv] else []) ++
       [PEvent.commDisconnect, PEvent.closePort])

/-- Model of mpiIsIntercommAlive (main.c lines 359-403).  Returns the
C return value, the state reached, and the trace.  When the Irecv post
fails the C code sets the communicator to NULL and calls MPI_Abort,
which does not return; the model records this with aborted := true
(the nominal value 1 corresponds to the unreachable return statement).
When MPI_Test reports completion, MPI semantics set the request to
MPI_REQUEST_NULL before mpiDisconnect is entered. -/
def mpiIsIntercommAlive (env : LivenessEnv) (s : ProdState) :
    Nat × ProdState × List PEvent :=
  if s.comm = false then (0, s, [])
  else if s.recvReq = false then
    if env.irecvOk = false then
      (1, { s with comm := false, aborted := true }, [PEvent.abortAll])
    else
      (1, { s with recvReq := true }, [PEvent.postProbe])
  else if env.testOk = false then
    (0, { s with comm := false }, [PEvent.testProbe])
  else if env.flag = true then
    (0, (mpiDisconnect { s with recvReq := false }).1,
      PEvent.testProbe :: (mpiDisconnect { s with recvReq := false }).2)
  else
    (1, s, [PEvent.testProbe])

/-- Number of outstanding quit-probe requests held by the single
recv_disconnect_request slot. -/
def probeCount (s : ProdState) : Nat :=
  if s.recvReq then 1 else 0

/-- One pass of the intercommunication block of the producer main loop
(main.c lines 168-190), taken when rank 0 holds a connection: check
liveness, and if alive wait for the previous image-data send to
complete (MPI_Wait empties the slot), re-check liveness, and if still
alive post the next asynchronous send. -/
def mainSendBlock (e1 e2 : LivenessEnv) (s : ProdState) :
    ProdState × List PEvent :=
  if s.aborted then (s, [])
  else if s.connected = false then (s, [])
  else
    let a1 := mpiIsIntercommAlive e1 s
    let s1 : ProdState := { a1.2.1 with connected := a1.1 == 1 }
    if s1.aborted then (s1, a1.2.2)
    else if a1.1 ≠ 1 then (s1, a1.2.2)
    else
      let s2 : ProdState := { s1 with sendReq := 0 }
      let a2 := mpiIsIntercommAlive e2 s2
      let s3 : ProdState := { a2.2.1 with connected := a2.1 == 1 }
      if s3.aborted then (s3, a1.2.2 ++ PEvent.waitSend :: a2.2.2)
      else if a2.1 ≠ 1 then (s3, a1.2.2 ++ PEvent.waitSend :: a2.2.2)
      else
        ({ s3 with sendReq := s3.sendReq + 1 },
         a1.2.2 ++ PEvent.waitSend :: a2.2.2 ++ [PEvent.postSend])

/-- Iterated producer ticks, concatenating the event traces. -/
def mainRun : List (LivenessEnv × LivenessEnv) → ProdState →
    ProdState × List PEvent
  | [], s => (s, [])
  | e :: es, s =>
    let r := mainSendBlock e.1 e.2 s
    let r2 := mainRun es r.1
    (r2.1, r.2 ++ r2.2)

/-- Producer state right after mpiConnect succeeded (main.c line 108):
intercomm established, port published, both request slots NULL. -/
def prodInit : ProdState :=
  { comm := true, recvReq := false, sendReq := 0, portOpen := true,
    connected := true, aborted := false }

/-- Shutdown block of the producer main (main.c lines 218-234), taken
when rank 0 still holds a connection after the main loop: check
liveness, and if alive transmit the quit marker with the synchronous
blocking MPI_Ssend, re-check liveness, and if still alive call
mpiDisconnect.  There is no probe-and-receive drain loop on this
endpoint. -/
def mainShutdown (e1 e2 : LivenessEnv) (s : ProdState) :
    ProdState × List PEvent :=
  if s.aborted then (s, [])
  else if s.connected = false then (s, [])
  else
    let a1 := mpiIsIntercommAlive e1 s
    let s1 : ProdState := { a1.2.1 with connected := a1.1 == 1 }
    if s1.aborted then (s1, a1.2.2)
    else if a1.1 ≠ 1 then (s1, a1.2.2)
    else
      let a2 := mpiIsIntercommAlive e2 s1
      let s2 : ProdState := { a2.2.1 with connected := a2.1 == 1 }
      if s2.aborted then (s2, a1.2.2 ++ PEvent.ssendQuit :: a2.2.2)
      else if a2.1 ≠ 1 then (s2, a1.2.2 ++ PEvent.ssendQuit :: a2.2.2)
      else
        let d := mpiDisconnect s2
        (d.1, a1.2.2 ++ PEvent.ssendQuit :: a2.2.2 ++ d.2)

/-- Effect of one primitive event on the number of outstanding
image-data send requests: MPI_Isend posts one, MPI_Wait and MPI_Cancel
drain the slot. -/
def sendStep (n : Nat) : PEvent → Nat
  | PEvent.postSend => n + 1
  | PEvent.waitSend => 0
  | PEvent.cancelSend => 0
  | _ => n

/-- Running outstanding-send counts after every event of a trace. -/
def sendCounts (n : Nat) : List PEvent → List Nat
  | [] => []
  | e :: es => sendStep n e :: sendCounts (sendStep n e) es

/-- Outstanding-send count at the end of a trace. -/
def sendFold (n : Nat) (t : List PEvent) : Nat :=
  t.foldl sendStep n

lemma sendFold_nil (n : Nat) : sendFold n [] = n := rfl

lemma sendFold_cons (n : Nat) (e : PEvent) (t : List PEvent) :
    sendFold n (e :: t) = sendFold (sendStep n e) t := rfl

lemma sendFold_append (n : Nat) (t1 t2 : List PEvent) :
    sendFold n (t1 ++ t2) = sendFold (sendFold n t1) t2 := by
  simp [sendFold, List.foldl_append]

lemma sendCounts_append (n : Nat) (t1 t2 : List PEvent) :
    sendCounts n (t1 ++ t2) =
      sendCounts n t1 ++ sendCounts (sendFold n t1) t2 := by
  induction t1 generalizing n with
  | nil => simp [sendCounts, sendFold]
  | cons e es ih =>
    simp only [List.cons_append, sendCounts, List.append_eq, ih,
      List.cons.injEq, true_and, sendFold_cons]

set_option maxHeartbeats 1000000 in
lemma mainSendBlock_send_ok (e1 e2 : LivenessEnv) (s : ProdState)
    (hn : s.sendReq ≤ 1) :
    (∀ k ∈ sendCounts s.sendReq (mainSendBlock e1 e2 s).2, k ≤ 1) ∧
      (mainSendBlock e1 e2 s).1.sendReq =
        sendFold s.sendReq (mainSendBlock e1 e2 s).2 ∧
      (mainSendBlock e1 e2 s).1.sendReq ≤ 1 := by
  obtain ⟨c, r, n, p, cn, a⟩ := s
  obtain ⟨i1, t1, f1⟩ := e1
  obtain ⟨i2, t2, f2⟩ := e2
  simp only at hn
  interval_cases n <;> revert c r p cn a i1 t1 f1 i2 t2 f2 <;> decide

lemma mainRun_send_ok (envs : List (LivenessEnv × LivenessEnv))
    (s : ProdState) (hn : s.sendReq ≤ 1) :
    (∀ k ∈ sendCounts s.sendReq (mainRun envs s).2, k ≤ 1) ∧
      (mainRun envs s).1.sendReq = sendFold s.sendReq (mainRun envs s).2 ∧
      (mainRun envs s).1.sendReq ≤ 1 := by
  induction envs generalizing s with
  | nil =>
    refine ⟨by simp [mainRun, sendCounts], by simp [mainRun, sendFold], ?_⟩
    simpa [mainRun] using hn
  | cons e es ih =>
    obtain ⟨h1, h2, h3⟩ := mainSendBlock_send_ok e.1 e.2 s hn
    obtain ⟨g1, g2, g3⟩ := ih (mainSendBlock e.1 e.2 s).1 h3
    have htrace : (mainRun (e :: es) s).2 =
        (mainSendBlock e.1 e.2 s).2 ++ (mainRun es (mainSendBlock e.1 e.2 s).1).2 := rfl
    have hstate : (mainRun (e :: es) s).1 =
        (mainRun es (mainSendBlock e.1 e.2 s).1).1 := rfl
    refine ⟨?_, ?_, ?_⟩
    · intro k hk
      rw [htrace, sendCounts_append, ← h2] at hk
      rcases List.mem_append.mp hk with hk | hk
      · exact h1 k hk
      · exact g1 k hk
    · rw [htrace, hstate, sendFold_append, ← h2]
      exact g2
    · rw [hstate]
      exact g3

/-- C1.  Single-slot send invariant: over every sequence of producer
ticks from the freshly connected state, replaying the trace of channel
events never shows more than one outstanding image-data send request;
since MPI_Isend is the only event that increases the count, every send
is posted while the slot is empty, i.e. only after the MPI_Wait (or a
cancellation) that retired the previous send. -/
theorem single_slot_send_invariant (envs : List (LivenessEnv × LivenessEnv)) :
    ∀ k ∈ sendCounts 0 (mainRun envs prodInit).2, k ≤ 1 :=
  (mainRun_send_ok envs prodInit (Nat.zero_le 1)).1

/-- Witness for C1 at a concrete one-tick run whose trace posts a send. -/
theorem single_slot_send_invariant_witness :
    1 ∈ sendCounts 0
        (mainRun [(⟨true, true, false⟩, ⟨true, true, false⟩)] prodInit).2 ∧
      1 ≤ 1 :=
  ⟨by decide,
   single_slot_send_invariant [(⟨true, true, false⟩, ⟨true, true, false⟩)] 1
     (by decide)⟩

/-- C2.  Liveness-check semantics of mpiIsIntercommAlive on a live
handle with succeeding MPI calls: with no quit-probe outstanding it
posts one and returns 1 without performing any completion test; with a
probe outstanding it performs exactly one non-blocking MPI_Test, and
returns 1 leaving the state unchanged when the probe has not
completed, while a completed probe (quit marker received) triggers the
disconnection path and returns 0. -/
theorem checkLiveness_semantics (env : LivenessEnv) (s : ProdState)
    (hcomm : s.comm = true) (hpost : env.irecvOk = true)
    (htest : env.testOk = true) :
    (s.recvReq = false →
       (mpiIsIntercommAlive env s).1 = 1 ∧
         (mpiIsIntercommAlive env s).2.1 = { s with recvReq := true } ∧
         (mpiIsIntercommAlive env s).2.2 = [PEvent.postProbe]) ∧
      (s.recvReq = true → env.flag = false →
        (mpiIsIntercommAlive env s).1 = 1 ∧
          (mpiIsIntercommAlive env s).2.1 = s ∧
          (mpiIsIntercommAlive env s).2.2 = [PEvent.testProbe]) ∧
      (s.recvReq = true → env.flag = true →
        (mpiIsIntercommAlive env s).1 = 0 ∧
          (mpiIsIntercommAlive env s).2.1.comm = false ∧
          PEvent.commDisconnect ∈ (mpiIsIntercommAlive env s).2.2) := by
  obtain ⟨c, r, n, p, cn, a⟩ := s
  obtain ⟨i, t, f⟩ := env
  simp only at hcomm hpost htest
  subst hcomm hpost htest
  cases r <;> cases f <;>
    simp [mpiIsIntercommAlive, mpiDisconnect]

/-- Witness for C2 at a live state with an outstanding completed probe. -/
theorem checkLiveness_semantics_witness :
    (mpiIsIntercommAlive ⟨true, true, true⟩
        { comm := true, recvReq := true, sendReq := 1, portOpen := true,
          connected := true, aborted := false }).1 = 0 ∧
      (mpiIsIntercommAlive ⟨true, true, true⟩
          { comm := true, recvReq := true, sendReq := 1, portOpen := true,
            connected := true, aborted := false }).2.1.comm = false ∧
      PEvent.commDisconnect ∈ (mpiIsIntercommAlive ⟨true, true, true⟩
          { comm := true, recvReq := true, sendReq := 1, portOpen := true,
            connected := true, aborted := false }).2.2 :=
  ((checkLiveness_semantics ⟨true, true, true⟩
      { comm := true, recvReq := true, sendReq := 1, portOpen := true,
        connected := true, aborted := false }
      rfl rfl rfl).2.2) rfl rfl

/-- C5 counterexample.  On a live handle with an outstanding probe,
a failing MPI_Test call makes mpiIsIntercommAlive return 0 and null
the communicator, but the process group is NOT aborted (main.c lines
387-392 have no MPI_Abort, unlike the MPI_Irecv failure branch at
lines 377-382), refuting the conjunct that the wider producer process
group is terminated on any probe post or test failure. -/
theorem probe_failure_counterexample :
    (mpiIsIntercommAlive ⟨true, false, false⟩
        { comm := true, recvReq := true, sendReq := 0, portOpen := true,
          connected := true, aborted := false }).1 = 0 ∧
      (mpiIsIntercommAlive ⟨true, false, false⟩
          { comm := true, recvReq := true, sendReq := 0, portOpen := true,
            connected := true, aborted := false }).2.1.comm = false ∧
      (mpiIsIntercommAlive ⟨true, false, false⟩
          { comm := true, recvReq := true, sendReq := 0, portOpen := true,
            connected := true, aborted := false }).2.1.aborted = false := by
  decide

/-- C5 amended.  A failing quit-probe POST (MPI_Irecv) nulls the
communicator and aborts the whole process group, with no graceful
drain (the trace holds only the abort).  A failing quit-probe TEST
(MPI_Test) returns Dead (0) and nulls the communicator with no
graceful drain, but does not terminate the process group. -/
theorem probe_failure_amended (env : LivenessEnv) (s : ProdState)
    (hcomm : s.comm = true) :
    (s.recvReq = false → env.irecvOk = false →
       (mpiIsIntercommAlive env s).2.1.comm = false ∧
         (mpiIsIntercommAlive env s).2.1.aborted = true ∧
         (mpiIsIntercommAlive env s).2.2 = [PEvent.abortAll]) ∧
      (s.recvReq = true → env.testOk = false →
        (mpiIsIntercommAlive env s).1 = 0 ∧
          (mpiIsIntercommAlive env s).2.1 = { s with comm := false } ∧
          (mpiIsIntercommAlive env s).2.2 = [PEvent.testProbe]) := by
  obtain ⟨c, r, n, p, cn, a⟩ := s
  obtain ⟨i, t, f⟩ := env
  simp only at hcomm
  subst hcomm
  cases r <;> cases i <;> cases t <;>
    simp [mpiIsIntercommAlive]

/-- Witness for C5 amended at a concrete failing probe post. -/
theorem probe_failure_amended_witness :
    (mpiIsIntercommAlive ⟨false, true, false⟩ prodInit).2.1.comm = false ∧
      (mpiIsIntercommAlive ⟨false, true, false⟩ prodInit).2.1.aborted = true ∧
      (mpiIsIntercommAlive ⟨false, true, false⟩ prodInit).2.2 =
        [PEvent.abortAll] :=
  (probe_failure_amended ⟨false, true, false⟩ prodInit rfl).1 rfl rfl

/-- C6.  mpiDisconnect is idempotent: it is a no-op on an already
closed handle (communicator NULL); on a live handle it empties both
request slots, nulls the communicator and closes the port, and its
trace consists of the cancellations of the outstanding send and
quit-probe requests, strictly before MPI_Comm_disconnect, which comes
strictly before MPI_Close_port; a cancellation appears whenever the
corresponding request is outstanding.  Running mpiDisconnect again on
the result is a no-op. -/
theorem disconnect_idempotent (s : ProdState) :
    (s.comm = false → mpiDisconnect s = (s, [])) ∧
      (s.comm = true →
        (mpiDisconnect s).1.comm = false ∧
          (mpiDisconnect s).1.portOpen = false ∧
          (mpiDisconnect s).1.sendReq = 0 ∧
          (mpiDisconnect s).1.recvReq = false ∧
          ∃ c : List PEvent,
            (mpiDisconnect s).2 =
                c ++ [PEvent.commDisconnect, PEvent.closePort] ∧
              (∀ e ∈ c, e = PEvent.cancelSend ∨ e = PEvent.cancelRecv) ∧
              (s.sendReq ≠ 0 → PEvent.cancelSend ∈ c) ∧
              (s.recvReq = true → PEvent.cancelRecv ∈ c)) ∧
      mpiDisconnect (mpiDisconnect s).1 = ((mpiDisconnect s).1, []) := by
  obtain ⟨c, r, n, p, cn, a⟩ := s
  refine ⟨?_, ?_, ?_⟩
  · intro hc
    simp only at hc
    subst hc
    simp [mpiDisconnect]
  · intro hc
    simp only at hc
    subst hc
    refine ⟨by simp [mpiDisconnect], by simp [mpiDisconnect],
      by simp [mpiDisconnect], by simp [mpiDisconnect],
      (if n ≠ 0 then [PEvent.cancelSend] else []) ++
        (if r then [PEvent.cancelRecv] else []), ?_, ?_, ?_, ?_⟩
    · simp [mpiDisconnect]
    · intro e he
      rcases List.mem_append.mp he with h | h <;>
        [skip; skip] <;> split at h <;> simp_all
    · intro hn
      simp [hn]
    · intro hr
      subst hr
      simp
  · cases c <;> simp [mpiDisconnect]

/-- Witness for C6 at a live state with both requests outstanding. -/
theorem disconnect_idempotent_witness :
    (mpiDisconnect
        { comm := true, recvReq := true, sendReq := 1, portOpen := true,
          connected := true, aborted := false }).1.comm = false ∧
      (mpiDisconnect
          { comm := true, recvReq := true, sendReq := 1, portOpen := true,
            connected := true, aborted := false }).1.portOpen = false ∧
      (mpiDisconnect
          { comm := true, recvReq := true, sendReq := 1, portOpen := true,
            connected := true, aborted := false }).1.sendReq = 0 ∧
      (mpiDisconnect
          { comm := true, recvReq := true, sendReq := 1, portOpen := true,
            connected := true, aborted := false }).1.recvReq = false :=
  let h := ((disconnect_idempotent
    { comm := true, recvReq := true, sendReq := 1, portOpen := true,
      connected := true, aborted := false }).2.1) rfl
  ⟨h.1, h.2.1, h.2.2.1, h.2.2.2.1⟩

/-- C10.  Whenever mpiIsIntercommAlive returns normally (the MPI_Abort
path of a failed probe post is excluded), a return value of 0 means
the communicator slot has been set to MPI_COMM_NULL, and a return
value of 1 means the communicator is non-NULL and exactly one
quit-probe request is outstanding. -/
theorem liveness_result_postcondition (env : LivenessEnv) (s : ProdState)
    (h : (mpiIsIntercommAlive env s).2.1.aborted = false) :
    ((mpiIsIntercommAlive env s).1 = 0 →
       (mpiIsIntercommAlive env s).2.1.comm = false) ∧
      ((mpiIsIntercommAlive env s).1 = 1 →
        (mpiIsIntercommAlive env s).2.1.comm = true ∧
          probeCount (mpiIsIntercommAlive env s).2.1 = 1) := by
  obtain ⟨c, r, n, p, cn, a⟩ := s
  obtain ⟨i, t, f⟩ := env
  cases c <;> cases r <;> cases i <;> cases t <;> cases f <;> cases a <;>
    simp_all [mpiIsIntercommAlive, mpiDisconnect, probeCount]

/-- Witness for C10 at a freshly posted probe on a live handle. -/
theorem liveness_result_postcondition_witness :
    (mpiIsIntercommAlive ⟨true, true, false⟩ prodInit).2.1.comm = true ∧
      probeCount (mpiIsIntercommAlive ⟨true, true, false⟩ prodInit).2.1 = 1 :=
  (liveness_result_postcondition ⟨true, true, false⟩ prodInit (by decide)).2
    (by decide)

/-!
Consumer side: src/mpi-visualize/mainwindow.cpp.  The tick is the
timer slot realtimeDataSlot; its Iprobe loop is driven by the list of
notifications the probes would report this tick, each carrying the
success of its MPI_Iprobe call and the MPI tag of the probed message
(MPI_TAG_MESSAGE_QUIT = 0, MPI_TAG_IMAGE_DATA = 1).  Receives are
given identities by a frame counter so that the relation between the
displayed frame and the completed receives is expressible.
-/

/-- One notification discovered by MPI_Iprobe in the consumer tick
loop: whether the probe call itself succeeded and the tag of the
probed message. -/
structure Notif where
  probeOk : Bool
  tag : Nat
  deriving Repr, DecidableEq

/-- One message drained by receivePendingMessages during teardown:
whether its MPI_Iprobe call succeeded, and whether MPI_Get_count
yields a defined count for the image datatype and for MPI_INT
respectively. -/
structure QueuedMsg where
  probeOk : Bool
  shortCountOk : Bool
  intCountOk : Bool
  deriving Repr, DecidableEq

/-- Primitive consumer-side channel events. -/
inductive CEvent where
  | testRecv
  | display
  | cancelRecv
  | postRecv
  | recvQuit
  | commDisconnect
  | isendQuit
  | ssendQuit
  | probe
  | recvDrainInt
  | recvDrainImage
  | abort (code : Int)
  | finalize
  deriving Repr, DecidableEq

/-- Consumer-side state of MainWindow: mpiStarted models
MPI_Initialized, connected and intercomm the members of the class,
pendingRecv the static request_image_data of realtimeDataSlot
(carrying the identity of the frame being received), nextFrame a
counter handing out frame identities, displayed the frame currently
shown in the color map, completed the identities of the receives that
completed (newest first), skipped the skippedRecvFrame counter. -/
structure ConsState where
  mpiStarted : Bool
  connected : Bool
  intercomm : Bool
  pendingRecv : Option Nat
  nextFrame : Nat
  displayed : Option Nat
  completed : List Nat
  skipped : Nat
  recvFrameCount : Nat
  totalRecvFrameCount : Nat
  aborted : Bool
  deriving Repr, DecidableEq

/-- Oracle for the MainWindow constructor: whether the rendezvous
descriptor file /tmp/mpiportname.txt opens, whether it is non-empty,
and whether MPI_Comm_connect succeeds. -/
structure InitEnv where
  fileReadable : Bool
  fileNonEmpty : Bool
  connectOk : Bool
  deriving Repr, DecidableEq

/-- Model of the MainWindow constructor (mainwindow.cpp lines 18-62):
only when the descriptor file opens does it read the port name, call
MPI_Init and attempt MPI_Comm_connect; when the file is absent or
unreadable the window starts with MPI uninitialized, no
intercommunicator and connected = 0, and there is no retry. -/
def mainWindowInit (env : InitEnv) : ConsState :=
  if env.fileReadable then
    { mpiStarted := true, connected := env.connectOk,
      intercomm := env.connectOk, pendingRecv := none, nextFrame := 0,
      displayed := none, completed := [], skipped := 0,
      recvFrameCount := 0, totalRecvFrameCount := 0, aborted := false }
  else
    { mpiStarted := false, connected := false, intercomm := false,
      pendingRecv := none, nextFrame := 0, displayed := none,
      completed := [], skipped := 0, recvFrameCount := 0,
      totalRecvFrameCount := 0, aborted := false }

/-- Test phase at the top of realtimeDataSlot (lines 238-262): when a
receive is pending, MPI_Test it; on completion the request slot is
cleared, the frame counters are bumped and the received buffer is
copied into the color map (the completed frame becomes the displayed
one). -/
def realtimeTestPhase (testFlag : Bool) (s : ConsState) :
    ConsState × List CEvent :=
  match s.pendingRecv with
  | none => (s, [])
  | some f =>
    if testFlag then
      ({ s with
          pendingRecv := none
          displayed := some f
          completed := f :: s.completed
          recvFrameCount := s.recvFrameCount + 1
          totalRecvFrameCount := s.totalRecvFrameCount + 1 },
       [CEvent.testRecv, CEvent.display])
    else (s, [CEvent.testRecv])

/-- Handling of one probed notification in the realtimeDataSlot loop
(lines 266-309): a failed MPI_Iprobe aborts; a message with the image
tag cancels a still-pending receive (counting one skipped frame) and
posts a fresh receive for this notification; any other tag is handled
by the else branch as the quit message, which is received
synchronously, the communicator is disconnected and the consumer is
marked disconnected. -/
def consPollStep (m : Notif) (s : ConsState) : ConsState × List CEvent :=
  if m.probeOk = false then
    ({ s with aborted := true }, [CEvent.abort (-11)])
  else if m.tag = 1 then
    match s.pendingRecv with
    | some _ =>
      ({ s with
          skipped := s.skipped + 1
          pendingRecv := some s.nextFrame
          nextFrame := s.nextFrame + 1 },
       [CEvent.probe, CEvent.cancelRecv, CEvent.postRecv])
    | none =>
      ({ s with
          pendingRecv := some s.nextFrame
          nextFrame := s.nextFrame + 1 },
       [CEvent.probe, CEvent.postRecv])
  else
    ({ s with connected := false, intercomm := false },
     [CEvent.probe, CEvent.recvQuit, CEvent.commDisconnect])

/-- The do-while probe loop of realtimeDataSlot: it keeps polling
while a message is available and the consumer is still connected; the
final MPI_Iprobe that reports no message ends the loop. -/
def consPoll : List Notif → ConsState → ConsState × List CEvent
  | [], s => (s, [CEvent.probe])
  | m :: ms, s =>
    let r := consPollStep m s
    if r.1.aborted then (r.1, r.2)
    else if r.1.connected = false then (r.1, r.2)
    else
      let r2 := consPoll ms r.1
      (r2.1, r.2 ++ r2.2)

/-- Model of realtimeDataSlot (lines 219-337): the whole channel block
runs only when MPI is initialized and the window is connected; it
first tests the pending receive, then drains the probe loop.  The
replot and FPS bookkeeping have no channel effect. -/
def realtimeDataSlot (testFlag : Bool) (msgs : List Notif)
    (s : ConsState) : ConsState × List CEvent :=
  if s.mpiStarted = true ∧ s.connected = true then
    let r1 := realtimeTestPhase testFlag s
    let r2 := consPoll msgs r1.1
    (r2.1, r1.2 ++ r2.2)
  else (s, [])

/-- Iterated consumer ticks. -/
def consRun : List (Bool × List Notif) → ConsState →
    ConsState × List CEvent
  | [], s => (s, [])
  | t :: ts, s =>
    let r := realtimeDataSlot t.1 t.2 s
    let r2 := consRun ts r.1
    (r2.1, r.2 ++ r2.2)

/-- Model of MainWindow::receivePendingMessages (lines 97-147): probe
and receive already-queued messages until none remain.  A failed probe
aborts with code 1.  For an available message, when MPI_Get_count for
the image datatype yields no defined count the code falls back to
MPI_INT, receiving the message as ints when that count is defined and
aborting with code -12 otherwise; a defined image count receives the
message as image data.  (The final else branch aborting with -13 is
the unreachable complement of the second condition.) -/
def receivePendingMessages : List QueuedMsg → List CEvent
  | [] => [CEvent.probe]
  | m :: ms =>
    if m.probeOk = false then [CEvent.abort 1]
    else if m.shortCountOk = false then
      if m.intCountOk = true then
        CEvent.probe :: CEvent.recvDrainInt :: receivePendingMessages ms
      else [CEvent.probe, CEvent.abort (-12)]
    else CEvent.probe :: CEvent.recvDrainImage :: receivePendingMessages ms

/-- Model of the MainWindow destructor (lines 66-93): when MPI was
initialized and the window is still connected, the quit marker is
transmitted with the NON-blocking MPI_Isend (the request is never
waited on), then receivePendingMessages drains the queued incoming
messages, then MPI_Comm_disconnect; MPI_Finalize runs whenever MPI
was initialized. -/
def mainWindowDestructor (queued : List QueuedMsg) (s : ConsState) :
    List CEvent :=
  if s.mpiStarted = false then []
  else
    (if s.connected = true then
        CEvent.isendQuit ::
          (receivePendingMessages queued ++ [CEvent.commDisconnect])
      else []) ++ [CEvent.finalize]

/-- Number of data notifications of a tick that arrive while a receive
is already pending, replaying the pending status through the poll loop
(a data notification leaves a fresh receive pending; a failed probe or
a quit notification ends the loop). -/
def droppedCount : Bool → List Notif → Nat
  | _, [] => 0
  | pending, m :: ms =>
    if m.probeOk = false then 0
    else if m.tag = 1 then
      (if pending then 1 else 0) + droppedCount true ms
    else 0

/-- The displayed frame is the most recently completed receive. -/
def dispInv (s : ConsState) : Prop :=
  s.displayed = s.completed.head?

/-- A queued message the teardown drain can receive: its probe
succeeds and one of the two count queries is defined. -/
def goodMsg (m : QueuedMsg) : Bool :=
  m.probeOk && (m.shortCountOk || m.intCountOk)

/-- Number of drain receives in a teardown trace. -/
def drainReceiveCount : List CEvent → Nat
  | [] => 0
  | CEvent.recvDrainInt :: es => drainReceiveCount es + 1
  | CEvent.recvDrainImage :: es => drainReceiveCount es + 1
  | _ :: es => drainReceiveCount es

/-- A connected consumer right after a successful constructor. -/
def consReady : ConsState :=
  { mpiStarted := true, connected := true, intercomm := true,
    pendingRecv := none, nextFrame := 0, displayed := none,
    completed := [], skipped := 0, recvFrameCount := 0,
    totalRecvFrameCount := 0, aborted := false }

lemma realtimeTestPhase_skipped (tf : Bool) (s : ConsState) :
    (realtimeTestPhase tf s).1.skipped = s.skipped ∧
      (realtimeTestPhase tf s).1.connected = s.connected ∧
      (realtimeTestPhase tf s).1.aborted = s.aborted := by
  unfold realtimeTestPhase
  cases s.pendingRecv with
  | none => exact ⟨rfl, rfl, rfl⟩
  | some f => cases tf <;> simp

lemma realtimeTestPhase_dispInv (tf : Bool) (s : ConsState)
    (h : dispInv s) : dispInv (realtimeTestPhase tf s).1 := by
  unfold dispInv at h ⊢
  unfold realtimeTestPhase
  cases s.pendingRecv with
  | none => exact h
  | some f => cases tf <;> simp [h]

lemma consPoll_skipped (msgs : List Notif) (s : ConsState)
    (hc : s.connected = true) (ha : s.aborted = false) :
    (consPoll msgs s).1.skipped =
      s.skipped + droppedCount s.pendingRecv.isSome msgs := by
  induction msgs generalizing s with
  | nil => simp [consPoll, droppedCount]
  | cons m ms ih =>
    by_cases hp : m.probeOk = false
    · simp [consPoll, consPollStep, hp, droppedCount]
    · rw [Bool.not_eq_false] at hp
      by_cases ht : m.tag = 1
      · cases hpr : s.pendingRecv with
        | some f =>
          have := ih { s with
            skipped := s.skipped + 1
            pendingRecv := some s.nextFrame
            nextFrame := s.nextFrame + 1 } hc ha
          simp [consPoll, consPollStep, hp, ht, hpr, ha, hc,
            droppedCount] at this ⊢
          omega
        | none =>
          have := ih { s with
            pendingRecv := some s.nextFrame
            nextFrame := s.nextFrame + 1 } hc ha
          simp [consPoll, consPollStep, hp, ht, hpr, ha, hc,
            droppedCount] at this ⊢
          omega
      · simp [consPoll, consPollStep, hp, ht, ha, droppedCount]

lemma consPollStep_display (m : Notif) (s : ConsState) :
    (consPollStep m s).1.displayed = s.displayed ∧
      (consPollStep m s).1.completed = s.completed := by
  unfold consPollStep
  by_cases hp : m.probeOk = false
  · simp [hp]
  · by_cases ht : m.tag = 1 <;> cases hpr : s.pendingRecv <;>
      simp [hp, ht, hpr]

lemma consPoll_display (msgs : List Notif) (s : ConsState) :
    (consPoll msgs s).1.displayed = s.displayed ∧
      (consPoll msgs s).1.completed = s.completed := by
  induction msgs generalizing s with
  | nil => exact ⟨rfl, rfl⟩
  | cons m ms ih =>
    have hstep := consPollStep_display m s
    simp only [consPoll]
    split
    · exact hstep
    · split
      · exact hstep
      · exact ⟨((ih _).1).trans hstep.1, ((ih _).2).trans hstep.2⟩

lemma realtimeDataSlot_dispInv (tf : Bool) (msgs : List Notif)
    (s : ConsState) (h : dispInv s) :
    dispInv (realtimeDataSlot tf msgs s).1 := by
  unfold realtimeDataSlot
  split
  · have h1 := realtimeTestPhase_dispInv tf s h
    have h2 := consPoll_display msgs (realtimeTestPhase tf s).1
    unfold dispInv at h1 ⊢
    rw [h2.1, h2.2]
    exact h1
  · exact h

lemma consRun_dispInv (ticks : List (Bool × List Notif)) (s : ConsState)
    (h : dispInv s) : dispInv (consRun ticks s).1 := by
  induction ticks generalizing s with
  | nil => exact h
  | cons t ts ih =>
    exact ih (realtimeDataSlot t.1 t.2 s).1
      (realtimeDataSlot_dispInv t.1 t.2 s h)

/-- C3.  Drop accounting of the consumer tick: on a connected tick the
skipped-frame counter grows by exactly the number of data
notifications that are probed while a receive is still pending (each
cancels the pending receive, counts one skip, and posts a fresh
receive), and the displayed frame always equals the most recently
completed receive, an invariant every tick and every sequence of
ticks preserves. -/
theorem drop_accounting (testFlag : Bool) (msgs : List Notif)
    (s : ConsState) (hi : s.mpiStarted = true) (hc : s.connected = true)
    (ha : s.aborted = false) :
    (realtimeDataSlot testFlag msgs s).1.skipped =
        s.skipped +
          droppedCount (realtimeTestPhase testFlag s).1.pendingRecv.isSome
            msgs ∧
      (dispInv s → dispInv (realtimeDataSlot testFlag msgs s).1) ∧
      ∀ ticks : List (Bool × List Notif), ∀ s0 : ConsState,
        dispInv s0 → dispInv (consRun ticks s0).1 := by
  refine ⟨?_, realtimeDataSlot_dispInv testFlag msgs s, consRun_dispInv⟩
  obtain ⟨f1, f2, f3⟩ := realtimeTestPhase_skipped testFlag s
  have hpoll := consPoll_skipped msgs (realtimeTestPhase testFlag s).1
    (by rw [f2]; exact hc) (by rw [f3]; exact ha)
  unfold realtimeDataSlot
  rw [if_pos ⟨hi, hc⟩]
  simp only [hpoll, f1]

/-- Witness for C3: two data notifications probed while a receive is
pending skip exactly two frames. -/
theorem drop_accounting_witness :
    (realtimeDataSlot false [⟨true, 1⟩, ⟨true, 1⟩]
          { consReady with pendingRecv := some 0, nextFrame := 1 }).1.skipped =
        { consReady with pendingRecv := some 0, nextFrame := 1 }.skipped +
          droppedCount (realtimeTestPhase false
              { consReady with pendingRecv := some 0, nextFrame := 1 }).1.pendingRecv.isSome
            [⟨true, 1⟩, ⟨true, 1⟩] ∧
      (dispInv { consReady with pendingRecv := some 0, nextFrame := 1 } →
        dispInv (realtimeDataSlot false [⟨true, 1⟩, ⟨true, 1⟩]
            { consReady with pendingRecv := some 0, nextFrame := 1 }).1) :=
  let h := drop_accounting false [⟨true, 1⟩, ⟨true, 1⟩]
    { consReady with pendingRecv := some 0, nextFrame := 1 } rfl rfl rfl
  ⟨h.1, h.2.1⟩

lemma consRun_uninit (ticks : List (Bool × List Notif)) (s : ConsState)
    (h : s.mpiStarted = false) : consRun ticks s = (s, []) := by
  induction ticks with
  | nil => rfl
  | cons t ts ih =>
    have h1 : realtimeDataSlot t.1 t.2 s = (s, []) := by
      unfold realtimeDataSlot
      rw [if_neg]
      intro hcon
      rw [h] at hcon
      exact Bool.false_ne_true hcon.1
    show (let r := realtimeDataSlot t.1 t.2 s
          let r2 := consRun ts r.1
          ((r2.1, r.2 ++ r2.2) : ConsState × List CEvent)) = (s, [])
    rw [h1]
    simp [ih]

/-- C7.  When the rendezvous descriptor file is absent or unreadable
at startup, the consumer starts disconnected with MPI uninitialized
and, over its entire run (any number of timer ticks followed by the
destructor), performs no channel operation at all and never becomes
connected. -/
theorem missing_descriptor_no_channel_ops (b1 b2 : Bool)
    (ticks : List (Bool × List Notif)) (queued : List QueuedMsg) :
    (consRun ticks (mainWindowInit ⟨false, b1, b2⟩)).2 = [] ∧
      (consRun ticks (mainWindowInit ⟨false, b1, b2⟩)).1.connected = false ∧
      mainWindowDestructor queued
        (consRun ticks (mainWindowInit ⟨false, b1, b2⟩)).1 = [] := by
  have h0 : (mainWindowInit ⟨false, b1, b2⟩).mpiStarted = false := rfl
  rw [consRun_uninit ticks _ h0]
  exact ⟨rfl, rfl, rfl⟩

/-- C8 counterexample.  A probed message whose tag (here 2) matches
neither MPI_TAG_IMAGE_DATA (1) nor MPI_TAG_MESSAGE_QUIT (0) is taken
by the else branch of realtimeDataSlot (mainwindow.cpp line 295) and
handled as the quit marker — received, disconnect, connected := 0 —
with no abort, refuting the claim that a message of neither expected
kind is treated as a fatal protocol violation. -/
theorem mismatched_tag_counterexample :
    (realtimeDataSlot false [⟨true, 2⟩] consReady).2 =
        [CEvent.probe, CEvent.recvQuit, CEvent.commDisconnect] ∧
      (realtimeDataSlot false [⟨true, 2⟩] consReady).1.connected = false ∧
      (realtimeDataSlot false [⟨true, 2⟩] consReady).1.aborted = false := by
  decide

/-- C8 amended.  In the teardown drain loop receivePendingMessages, a
message matching neither expected kind (no defined count for either
datatype) is a fatal protocol violation: the process aborts (code
-12).  In the per-tick poll loop realtimeDataSlot, however, any
message whose tag is not the data tag is handled as the quit marker
(disconnect, no abort) rather than aborting. -/
theorem mismatched_kind_amended (m : QueuedMsg) (ms : List QueuedMsg)
    (t : Nat) (s : ConsState) (hp : m.probeOk = true)
    (h1 : m.shortCountOk = false) (h2 : m.intCountOk = false)
    (hi : s.mpiStarted = true) (hc : s.connected = true)
    (ha : s.aborted = false) (ht : t ≠ 1) (hpr : s.pendingRecv = none) :
    receivePendingMessages (m :: ms) = [CEvent.probe, CEvent.abort (-12)] ∧
      (realtimeDataSlot false [⟨true, t⟩] s).2 =
        [CEvent.probe, CEvent.recvQuit, CEvent.commDisconnect] ∧
      (realtimeDataSlot false [⟨true, t⟩] s).1.connected = false ∧
      (realtimeDataSlot false [⟨true, t⟩] s).1.aborted = false := by
  constructor
  · simp [receivePendingMessages, hp, h1, h2]
  · unfold realtimeDataSlot
    rw [if_pos ⟨hi, hc⟩]
    unfold realtimeTestPhase
    rw [hpr]
    simp [consPoll, consPollStep, ht, ha]

/-- Witness for C8 amended at tag 2 and a both-counts-undefined
message. -/
theorem mismatched_kind_amended_witness :
    receivePendingMessages [⟨true, false, false⟩] =
        [CEvent.probe, CEvent.abort (-12)] ∧
      (realtimeDataSlot false [⟨true, 2⟩] consReady).2 =
        [CEvent.probe, CEvent.recvQuit, CEvent.commDisconnect] ∧
      (realtimeDataSlot false [⟨true, 2⟩] consReady).1.connected = false ∧
      (realtimeDataSlot false [⟨true, 2⟩] consReady).1.aborted = false :=
  mismatched_kind_amended ⟨true, false, false⟩ [] 2 consReady rfl rfl rfl
    rfl rfl rfl (by decide) rfl

/-- C4 counterexample.  The consumer endpoint transmits its quit
marker with the non-blocking MPI_Isend (mainwindow.cpp line 78), not
with a synchronous send: the destructor trace of a connected consumer
holds isendQuit and no synchronous quit send, refuting the claim that
both endpoints transmit the quit marker synchronously. -/
theorem quit_send_counterexample :
    mainWindowDestructor [] consReady =
        [CEvent.isendQuit, CEvent.probe, CEvent.commDisconnect,
          CEvent.finalize] ∧
      CEvent.ssendQuit ∉ mainWindowDestructor [] consReady := by
  decide

lemma drain_receives_all (queued : List QueuedMsg)
    (hq : ∀ m ∈ queued, goodMsg m = true) :
    drainReceiveCount (receivePendingMessages queued) = queued.length := by
  induction queued with
  | nil => rfl
  | cons m ms ih =>
    have hm := hq m (List.mem_cons_self m ms)
    have hms : ∀ x ∈ ms, goodMsg x = true := fun x hx =>
      hq x (List.mem_cons_of_mem m hx)
    unfold goodMsg at hm
    rw [Bool.and_eq_true, Bool.or_eq_true] at hm
    unfold receivePendingMessages
    rw [if_neg (by simp [hm.1])]
    by_cases hs : m.shortCountOk = false
    · have hint : m.intCountOk = true := by
        rcases hm.2 with h | h
        · rw [hs] at h; exact absurd h (by simp)
        · exact h
      rw [if_pos hs, if_pos hint]
      simp [drainReceiveCount, ih hms]
    · rw [if_neg hs]
      simp [drainReceiveCount, ih hms]

/-- C4 amended.  The producer transmits the quit marker with the
synchronous blocking MPI_Ssend and then, after one more non-blocking
liveness test, disconnects directly — its shutdown trace contains no
probe-and-receive drain.  The consumer transmits the quit marker with
the non-blocking MPI_Isend and then drains every already-queued
incoming notification with the non-blocking probe-and-receive loop
(one drain receive per queued message, ending on the probe that finds
none) before MPI_Comm_disconnect. -/
theorem quit_protocol_amended (s : ConsState) (queued : List QueuedMsg)
    (hi : s.mpiStarted = true) (hc : s.connected = true)
    (p : ProdState) (hp1 : p.comm = true) (hp2 : p.connected = true)
    (hp3 : p.recvReq = true) (hp4 : p.aborted = false)
    (hq : ∀ m ∈ queued, goodMsg m = true) :
    mainWindowDestructor queued s =
        CEvent.isendQuit ::
          (receivePendingMessages queued ++
            [CEvent.commDisconnect, CEvent.finalize]) ∧
      drainReceiveCount (receivePendingMessages queued) = queued.length ∧
      (mainShutdown ⟨true, true, false⟩ ⟨true, true, false⟩ p).2 =
        [PEvent.testProbe, PEvent.ssendQuit, PEvent.testProbe] ++
          (if p.sendReq ≠ 0 then [PEvent.cancelSend] else []) ++
          [PEvent.cancelRecv, PEvent.commDisconnect, PEvent.closePort] := by
  refine ⟨?_, drain_receives_all queued hq, ?_⟩
  · simp [mainWindowDestructor, hi, hc]
  · obtain ⟨pc, pr, n, pp, pcn, pa⟩ := p
    simp only at hp1 hp2 hp3 hp4
    subst hp1 hp2 hp3 hp4
    simp [mainShutdown, mpiIsIntercommAlive, mpiDisconnect]

/-- Producer steady state during streaming: a send and the quit probe
outstanding on a live connection. -/
def prodSteady : ProdState :=
  { comm := true, recvReq := true, sendReq := 1, portOpen := true,
    connected := true, aborted := false }

/-- Witness for C4 amended: a connected consumer with one good queued
message, and a producer in the steady streaming state. -/
theorem quit_protocol_amended_witness :
    mainWindowDestructor [⟨true, true, false⟩] consReady =
        CEvent.isendQuit ::
          (receivePendingMessages [⟨true, true, false⟩] ++
            [CEvent.commDisconnect, CEvent.finalize]) ∧
      drainReceiveCount (receivePendingMessages [⟨true, true, false⟩]) =
        [(⟨true, true, false⟩ : QueuedMsg)].length ∧
      (mainShutdown ⟨true, true, false⟩ ⟨true, true, false⟩ prodSteady).2 =
        [PEvent.testProbe, PEvent.ssendQuit, PEvent.testProbe] ++
          (if prodSteady.sendReq ≠ 0 then [PEvent.cancelSend] else []) ++
          [PEvent.cancelRecv, PEvent.commDisconnect, PEvent.closePort] :=
  quit_protocol_amended consReady [⟨true, true, false⟩] rfl rfl
    prodSteady rfl rfl rfl rfl (by decide)

/-!
Command-line surface of the producer (main.c lines 76-103): rank 0
scans argv and prints for the known flags; --openport sets a flag.
The world-size check and the main loop follow for every invocation;
the trace of the run records which of them execute.
-/

/-- Observable steps of the producer process (rank 0 view). -/
inductive MEvent where
  | printVersion
  | printHelp
  | printUnknown
  | printSizeError
  | connectPort
  | loopRun
  deriving Repr, DecidableEq

/-- One step of the argument loop (main.c lines 76-95), folding the
open_port flag and the printed messages. -/
def parseArg (acc : Bool × List MEvent) (a : String) : Bool × List MEvent :=
  if a = "--version" then (acc.1, acc.2 ++ [MEvent.printVersion])
  else if a = "--help" then (acc.1, acc.2 ++ [MEvent.printHelp])
  else if a = "--openport" then (true, acc.2)
  else (acc.1, acc.2 ++ [MEvent.printUnknown])

/-- The whole argument scan. -/
def parseArgs (args : List String) : Bool × List MEvent :=
  args.foldl parseArg (false, [])

/-- Control flow of main on rank 0 (main.c lines 49-246): scan the
arguments, then check the process count (mismatch prints an error and
finalizes), otherwise connect when --openport was given and run the
compute/send main loop. -/
def producerMain (args : List String) (worldSize : Nat) : List MEvent :=
  let pr := parseArgs args
  if worldSize ≠ 2 then pr.2 ++ [MEvent.printSizeError]
  else
    pr.2 ++ (if pr.1 = true then [MEvent.connectPort] else []) ++
      [MEvent.loopRun]

lemma parseArg_foldl_mono (args : List String) (acc : Bool × List MEvent)
    (e : MEvent) (h : e ∈ acc.2) : e ∈ (args.foldl parseArg acc).2 := by
  induction args generalizing acc with
  | nil => exact h
  | cons a as ih =>
    refine ih (parseArg acc a) ?_
    unfold parseArg
    by_cases h1 : a = "--version"
    · simp [h1, h]
    · by_cases h2 : a = "--help"
      · simp [h1, h2, h]
      · by_cases h3 : a = "--openport"
        · simp [h1, h2, h3, h]
        · simp [h1, h2, h3, h]

lemma parseArgs_version_mem (args : List String) (acc : Bool × List MEvent)
    (h : "--version" ∈ args) :
    MEvent.printVersion ∈ (args.foldl parseArg acc).2 := by
  induction args generalizing acc with
  | nil => cases h
  | cons a as ih =>
    rcases List.mem_cons.mp h with h | h
    · refine parseArg_foldl_mono as (parseArg acc a) _ ?_
      rw [← h]
      simp [parseArg]
    · exact ih (parseArg acc a) h

/-- C9 counterexample.  Invoking the producer with only --version and
the regular two processes prints the build identifier and then still
runs the whole compute loop: the argument loop (main.c lines 76-95)
has no exit or return after printing, refuting the claim that the
program exits after printing the identifier. -/
theorem version_no_exit_counterexample :
    producerMain ["--version"] 2 = [MEvent.printVersion, MEvent.loopRun] := by
  decide

/-- C9 amended.  Every invocation with --version among the arguments
prints the build identifier, and then continues normally instead of
exiting: with two processes the main loop still runs, with any other
process count the size error is still printed. -/
theorem version_flag_amended (args : List String) (ws : Nat)
    (h : "--version" ∈ args) :
    MEvent.printVersion ∈ producerMain args ws ∧
      (ws = 2 → MEvent.loopRun ∈ producerMain args ws) ∧
      (ws ≠ 2 → MEvent.printSizeError ∈ producerMain args ws) := by
  unfold producerMain
  by_cases hw : ws = 2
  · subst hw
    rw [if_neg (by simp)]
    refine ⟨?_, fun _ => ?_, fun hne => absurd rfl hne⟩
    · exact List.mem_append_left _
        (List.mem_append_left _ (parseArgs_version_mem args _ h))
    · exact List.mem_append_right _ (by simp)
  · rw [if_pos hw]
    refine ⟨List.mem_append_left _ (parseArgs_version_mem args _ h),
      fun h2 => absurd h2 hw, fun _ => List.mem_append_right _ (by simp)⟩

/-- Witness for C9 amended at argv = [--version] with two processes. -/
theorem version_flag_amended_witness :
    MEvent.printVersion ∈ producerMain ["--version"] 2 ∧
      MEvent.loopRun ∈ producerMain ["--version"] 2 :=
  ⟨(version_flag_amended ["--version"] 2 (by decide)).1,
   (version_flag_amended ["--version"] 2 (by decide)).2.1 rfl⟩

end MPIVisualize
